import Mathlib

/-!
Shallow embedding of the parametric drilled-block generator (src/main.js).

The repository generates rectangular blocks with drilled holes and face
grooves in two independent code paths:
  - an interactive mesh pipeline (`generateModel`, three.js + CSG), and
  - a textual CAD-script emitter (`downloadRhinoScript`, RhinoPython).

All geometry here is closed-form placement of cylinders, so numbers are
modelled as rationals: every constant in the source (20.0, 10.0, 40.0,
0.5, 80.0, ...) is an exactly representable double, and the arithmetic
performed on them (+, -, *, division by 2) is exact for the values in
scope, so ℚ is a faithful model of the JS number arithmetic used by the
layout code.  NaN behaviour of the UI handlers is modelled separately by
`JSNum`.
-/

/-- Fixed constant from src/main.js line 7. -/
def BOX_WIDTH : ℚ := 20

/-- Fixed constant from src/main.js line 8. -/
def BOX_DEPTH : ℚ := 20

/-- Fixed constant from src/main.js line 9. -/
def HEIGHT_PER_HOLE : ℚ := 20

/-- Fixed constant from src/main.js line 10. -/
def FIRST_HOLE_OFFSET : ℚ := 10

/-- Fixed constant from src/main.js line 11. -/
def HOLE_STEP : ℚ := 20

/-- Fixed constant from src/main.js line 12: distance between blocks in batch mode. -/
def BATCH_SPACING : ℚ := 40

/-- A point or vector in 3-space, rational coordinates. -/
structure Vec3 where
  x : ℚ
  y : ℚ
  z : ℚ
deriving DecidableEq, Repr

/-- Coordinate axis of a cylinder.  In the mesh pipeline a
three.js CylinderGeometry starts with its axis along Y; rotation
(0,0,pi/2) turns the axis to X and rotation (pi/2,0,0) turns it to Z. -/
inductive Axis where
  | X
  | Y
  | Z
deriving DecidableEq, Repr

/-- A cutter cylinder of the mesh pipeline: axis direction, world-space
center, radius and length, exactly the data set on each Brush before the
CSG subtraction in `generateModel`. -/
structure Cutter where
  axis : Axis
  center : Vec3
  radius : ℚ
  length : ℚ
deriving DecidableEq, Repr

/-- Shape data of a cutter: everything except its length.  Used to compare
the two pipelines, whose vertical-hole over-lengths differ (boxHeight+20
versus height+100) while all other data coincides. -/
def Cutter.shape (c : Cutter) : Axis × Vec3 × ℚ :=
  (c.axis, c.center, c.radius)

/-! ### Mesh pipeline (`generateModel`, src/main.js lines 155-301)

The hCylGeo cross cylinder has radius drillRadius and length 80
(line 179).  Per block: one vertical hole (length boxHeight+20,
line 209), then for each hole level an X-axis and a Z-axis through
cylinder, plus, when grooveDepth > 0, four side-groove cylinders
(lines 237-265); finally, when grooveDepth > 0, four top/bottom groove
cylinders (lines 269-293). -/

/-- The vertical hole of one block, from src/main.js lines 209-212:
a Y-axis cylinder of length boxHeight + 20 centered on the block axis. -/
def vCutter (xOffset r boxHeight : ℚ) : Cutter :=
  ⟨Axis.Y, ⟨xOffset, 0, 0⟩, r, boxHeight + 20⟩

/-- The four side-groove cylinders of one hole level, from src/main.js
lines 237-265: front (+Z), back (-Z), right (+X), left (-X), each a
length-80 cross cylinder displaced by sideOff from the block center. -/
def sideGroovesAt (xOffset yP sideOff r : ℚ) : List Cutter :=
  [ ⟨Axis.X, ⟨xOffset, yP, sideOff⟩, r, 80⟩,
    ⟨Axis.X, ⟨xOffset, yP, -sideOff⟩, r, 80⟩,
    ⟨Axis.Z, ⟨xOffset + sideOff, yP, 0⟩, r, 80⟩,
    ⟨Axis.Z, ⟨xOffset - sideOff, yP, 0⟩, r, 80⟩ ]

/-- One iteration of the hole loop (src/main.js lines 220-266): the X-axis
and Z-axis through cylinders at this level, then, when d > 0, the four
side grooves. -/
def levelCutters (xOffset yP sideOff r d : ℚ) : List Cutter :=
  [ ⟨Axis.X, ⟨xOffset, yP, 0⟩, r, 80⟩,
    ⟨Axis.Z, ⟨xOffset, yP, 0⟩, r, 80⟩ ] ++
  (if d > 0 then sideGroovesAt xOffset yP sideOff r else [])

/-- The hole loop of src/main.js lines 220-266, iterations 0..n-1 in
order; iteration i places its cutters at
yPos = -boxHeight/2 + FIRST_HOLE_OFFSET + i * HOLE_STEP (line 221). -/
def loopCutters (xOffset boxHeight sideOff r d : ℚ) : ℕ → List Cutter
  | 0 => []
  | i + 1 =>
      loopCutters xOffset boxHeight sideOff r d i ++
        levelCutters xOffset
          (-boxHeight / 2 + FIRST_HOLE_OFFSET + (i : ℚ) * HOLE_STEP) sideOff r d

/-- The top and bottom groove cylinders (src/main.js lines 269-293),
emitted only when d > 0: an X-axis and a Z-axis cross cylinder at
long-axis offset +tbOff and the same pair at -tbOff. -/
def tbCutters (xOffset tbOff r d : ℚ) : List Cutter :=
  if d > 0 then
    [ ⟨Axis.X, ⟨xOffset, tbOff, 0⟩, r, 80⟩,
      ⟨Axis.Z, ⟨xOffset, tbOff, 0⟩, r, 80⟩,
      ⟨Axis.X, ⟨xOffset, -tbOff, 0⟩, r, 80⟩,
      ⟨Axis.Z, ⟨xOffset, -tbOff, 0⟩, r, 80⟩ ]
  else []

/-- All cutters subtracted from one block by `generateModel` for a given
hole count and batch index, in subtraction order: the vertical hole, then
the hole loop, then the top/bottom grooves.  Offsets are those computed
at src/main.js lines 191, 197, 216, 217. -/
def blockCutters (holes index : ℕ) (r d : ℚ) : List Cutter :=
  let boxHeight : ℚ := (holes : ℚ) * HEIGHT_PER_HOLE
  let xOffset : ℚ := (index : ℚ) * BATCH_SPACING
  let sideOff : ℚ := BOX_WIDTH / 2 - d + r
  let tbOff : ℚ := boxHeight / 2 - d + r
  vCutter xOffset r boxHeight ::
    (loopCutters xOffset boxHeight sideOff r d holes ++ tbCutters xOffset tbOff r d)

/-- One finished block of the mesh pipeline: its horizontal placement,
its box height (the box is BOX_WIDTH x boxHeight x BOX_DEPTH centered at
(xOffset,0,0), src/main.js lines 194-198) and the cutters subtracted
from it. -/
structure Block where
  xOffset : ℚ
  boxHeight : ℚ
  cutters : List Cutter
deriving DecidableEq, Repr

/-- One iteration of the forEach over blocksToMake (src/main.js
lines 190-300). -/
def generateBlock (holes index : ℕ) (r d : ℚ) : Block :=
  ⟨(index : ℚ) * BATCH_SPACING, (holes : ℚ) * HEIGHT_PER_HOLE, blockCutters holes index r d⟩

/-- Generation mode, src/main.js line 19. -/
inductive Mode where
  | single
  | batch
deriving DecidableEq, Repr

/-- The whole `generateModel` (src/main.js lines 155-301) with its state
passing made explicit: `currentMeshes` is the list of blocks left by the
previous run.  The function first clears it (lines 157-163: every old
mesh is removed from the scene and its resources disposed), then builds
one block per blocksToMake entry, pushing each onto the fresh list. -/
def generateModel (currentMeshes : List Block) (mode : Mode) (numHoles : ℕ)
    (batchList : List ℕ) (r d : ℚ) : List Block :=
  let _ := currentMeshes
  let blocksToMake : List ℕ :=
    match mode with
    | Mode.single => [numHoles]
    | Mode.batch => batchList
  (blocksToMake.enum).foldl (fun acc p => acc ++ [generateBlock p.2 p.1 r d]) []

/-! ### Script emitter (`downloadRhinoScript`, src/main.js lines 316-438)

The emitted RhinoPython program defines create_block(num_holes, x_offset)
and a driver.  A Rhino cylinder is given by a base point, a plane normal
(its axis direction; the script only ever uses the three coordinate
axes) and a length: the solid extends from the base point along the
normal.  The numeric literals interpolated into the script text
(`${...}` splices) are modelled by using the same constants and
parameters the JS interpolates. -/

/-- A cylinder as the emitted script builds it: rs.AddCylinder on a plane
through basePt with the given normal, extruded for length, with radius. -/
structure RCyl where
  basePt : Vec3
  normal : Axis
  length : ℚ
  radius : ℚ
deriving DecidableEq, Repr

/-- Crosswise cutter length in the emitted script, line 360:
cross_length = 80.0. -/
def scriptCrossLength : ℚ := 80

/-- Block height computed inside the emitted script, line 327:
height = num_holes * HEIGHT_PER_HOLE (the splice of the shared constant). -/
def scriptHeight (num_holes : ℕ) : ℚ := (num_holes : ℚ) * HEIGHT_PER_HOLE

/-- The four groove cylinders G1..G4 of one loop iteration of the
emitted script (lines 374-391). -/
def scriptLevelGrooves (cx z_pos groove_offset r : ℚ) : List RCyl :=
  [ ⟨⟨cx - 40, groove_offset, z_pos⟩, Axis.X, scriptCrossLength, r⟩,
    ⟨⟨cx - 40, -groove_offset, z_pos⟩, Axis.X, scriptCrossLength, r⟩,
    ⟨⟨cx + groove_offset, -40, z_pos⟩, Axis.Y, scriptCrossLength, r⟩,
    ⟨⟨cx - groove_offset, -40, z_pos⟩, Axis.Y, scriptCrossLength, r⟩ ]

/-- One iteration of the for-loop of the emitted script (lines 362-391):
the two internal hole cylinders, then, when the spliced grooveDepth
literal is positive, the four groove cylinders G1..G4. -/
def scriptLevel (cx z_pos groove_offset r d : ℚ) : List RCyl :=
  [ ⟨⟨cx - 40, 0, z_pos⟩, Axis.X, scriptCrossLength, r⟩,
    ⟨⟨cx, -40, z_pos⟩, Axis.Y, scriptCrossLength, r⟩ ] ++
  (if d > 0 then scriptLevelGrooves cx z_pos groove_offset r else [])

/-- The for-loop of the emitted script, iterations 0..n-1; iteration i is
at z_pos = -height/2 + offset + i * step_size with offset and step_size
the spliced FIRST_HOLE_OFFSET and HOLE_STEP (lines 356-363). -/
def scriptLoop (cx height groove_offset r d : ℚ) : ℕ → List RCyl
  | 0 => []
  | i + 1 =>
      scriptLoop cx height groove_offset r d i ++
        scriptLevel cx
          (-height / 2 + FIRST_HOLE_OFFSET + (i : ℚ) * HOLE_STEP) groove_offset r d

/-- Top/bottom groove cylinders of the emitted script (lines 393-413),
guarded by the spliced grooveDepth literal being positive, with
tb_offset = height/2 - grooveDepth + drillRadius (line 395). -/
def scriptTb (cx height r d : ℚ) : List RCyl :=
  if d > 0 then
    let tb_offset : ℚ := height / 2 - d + r
    [ ⟨⟨cx - 40, 0, tb_offset⟩, Axis.X, scriptCrossLength, r⟩,
      ⟨⟨cx, -40, tb_offset⟩, Axis.Y, scriptCrossLength, r⟩,
      ⟨⟨cx - 40, 0, -tb_offset⟩, Axis.X, scriptCrossLength, r⟩,
      ⟨⟨cx, -40, -tb_offset⟩, Axis.Y, scriptCrossLength, r⟩ ]
  else []

/-- All cutter cylinders built by one call of the emitted create_block
(lines 324-415): the vertical hole (base at [cx,0,-height/2-50], normal
[0,0,1], length height+100, line 350-353), the hole loop, then the
top/bottom grooves.  groove_offset is the literal
(BOX_WIDTH/2) - grooveDepth + drillRadius spliced at line 359. -/
def scriptCreateBlockCutters (num_holes : ℕ) (x_offset r d : ℚ) : List RCyl :=
  let height : ℚ := scriptHeight num_holes
  let cx : ℚ := x_offset
  let groove_offset : ℚ := BOX_WIDTH / 2 - d + r
  ⟨⟨cx, 0, -height / 2 - 50⟩, Axis.Z, height + 100, r⟩ ::
    (scriptLoop cx height groove_offset r d num_holes ++ scriptTb cx height r d)

/-- Corner c1 of the base box of the emitted create_block (line 335):
the minimal corner [cx-width/2, cy-depth/2, cz-height/2]. -/
def scriptBoxC1 (num_holes : ℕ) (cx : ℚ) : Vec3 :=
  ⟨cx - BOX_WIDTH / 2, -BOX_DEPTH / 2, -scriptHeight num_holes / 2⟩

/-- Corner c7 of the base box of the emitted create_block (line 341):
the maximal corner [cx+width/2, cy+depth/2, cz+height/2]. -/
def scriptBoxC7 (num_holes : ℕ) (cx : ℚ) : Vec3 :=
  ⟨cx + BOX_WIDTH / 2, BOX_DEPTH / 2, scriptHeight num_holes / 2⟩

/-- The block list the script emitter serialises into the driver
(line 318): [numHoles] in single mode, batchList in batch mode. -/
def scriptBlockList (mode : Mode) (numHoles : ℕ) (batchList : List ℕ) : List ℕ :=
  match mode with
  | Mode.single => [numHoles]
  | Mode.batch => batchList

/-- The driver loop of the emitted script (lines 418-427): for i, h in
enumerate(blocks), x_pos = i * spacing, create_block(h, x_pos); spacing
is the spliced BATCH_SPACING (line 423). -/
def scriptModel (mode : Mode) (numHoles : ℕ) (batchList : List ℕ) (r d : ℚ) :
    List (ℚ × List RCyl) :=
  ((scriptBlockList mode numHoles batchList).enum).map
    (fun p => ((p.1 : ℚ) * BATCH_SPACING,
      scriptCreateBlockCutters p.2 ((p.1 : ℚ) * BATCH_SPACING) r d))

/-! ### Coordinate correspondence between the two pipelines

In the mesh pipeline the long axis of a block is Y; in the emitted script
it is Z, and the Y axis of the script plays the role of the mesh Z axis.
The mapping below sends a script-space point or axis into mesh space. -/

/-- Script-space axis direction to mesh-space axis. -/
def axisToMesh : Axis → Axis
  | Axis.X => Axis.X
  | Axis.Y => Axis.Z
  | Axis.Z => Axis.Y

/-- Script-space point to mesh-space point: swap Y and Z. -/
def ptToMesh (p : Vec3) : Vec3 := ⟨p.x, p.z, p.y⟩

/-- Center of a Rhino cylinder: the base point shifted half the length
along the normal. -/
def rcylCenter (c : RCyl) : Vec3 :=
  match c.normal with
  | Axis.X => ⟨c.basePt.x + c.length / 2, c.basePt.y, c.basePt.z⟩
  | Axis.Y => ⟨c.basePt.x, c.basePt.y + c.length / 2, c.basePt.z⟩
  | Axis.Z => ⟨c.basePt.x, c.basePt.y, c.basePt.z + c.length / 2⟩

/-- View a script cylinder as a mesh-space cutter. -/
def rcylToCutter (c : RCyl) : Cutter :=
  ⟨axisToMesh c.normal, ptToMesh (rcylCenter c), c.radius, c.length⟩

/-! ### UI input handlers (src/main.js lines 90-119)

JS numbers can be NaN, and every comparison with NaN is false; `JSNum`
makes this explicit.  An input string is modelled as its character
list.  parseInt and parseFloat are modelled on the decimal forms the
handlers receive from the numeric inputs: optional sign, decimal
digits, and for parseFloat an optional fractional part (exponent
notation, hex and Infinity are outside the model); a string with no
parsable prefix yields NaN for both, as in JS. -/

/-- A JS number as the handlers see it: either an actual (here rational)
value or NaN. -/
inductive JSNum where
  | num (q : ℚ)
  | nan
deriving DecidableEq, Repr

/-- JS comparison a <= b: false whenever either side is NaN. -/
def jsLe (a b : JSNum) : Bool :=
  match a, b with
  | JSNum.num x, JSNum.num y => decide (x ≤ y)
  | _, _ => false

/-- JS comparison a < b: false whenever either side is NaN. -/
def jsLt (a b : JSNum) : Bool :=
  match a, b with
  | JSNum.num x, JSNum.num y => decide (x < y)
  | _, _ => false

/-- ASCII space test for trimming, covering the whitespace the numeric
inputs can contain. -/
def isSpaceChar (c : Char) : Bool :=
  c = ' ' ∨ c = '\t' ∨ c = '\n' ∨ c = '\r'

/-- Trim of a character list: leading and trailing whitespace removed. -/
def jsTrim (cs : List Char) : List Char :=
  ((cs.dropWhile isSpaceChar).reverse.dropWhile isSpaceChar).reverse

/-- Split of a character list on commas, JS String.split style: the
separators are removed, empty pieces are kept, and the empty input gives
one empty piece. -/
def jsSplit : List Char → List (List Char)
  | [] => [[]]
  | c :: rest =>
      if c = ',' then [] :: jsSplit rest
      else
        match jsSplit rest with
        | [] => [[c]]
        | g :: gs => (c :: g) :: gs

/-- Numeric value of a digit list read left to right. -/
def digitsVal (ds : List Char) : ℕ :=
  ds.foldl (fun acc c => acc * 10 + (c.toNat - 48)) 0

/-- Longest digit prefix of a character list. -/
def takeDigits (cs : List Char) : List Char :=
  cs.takeWhile Char.isDigit

/-- Remainder after the longest digit prefix. -/
def dropDigits (cs : List Char) : List Char :=
  cs.dropWhile Char.isDigit

/-- Integer parse of an unsigned character list, JS parseInt style: the
longest digit prefix is the value, no digits means NaN (none). -/
def parseDigits (cs : List Char) : Option ℕ :=
  let ds := takeDigits cs
  if ds.isEmpty then none else some (digitsVal ds)

/-- JS parseInt (radix 10) on an already trimmed input: optional sign,
then the longest digit prefix; NaN (none) when no digit follows. -/
def parseJsInt (s : List Char) : Option ℤ :=
  match s with
  | '-' :: rest => (parseDigits rest).map (fun n => -(n : ℤ))
  | '+' :: rest => (parseDigits rest).map (fun n => (n : ℤ))
  | cs => (parseDigits cs).map (fun n => (n : ℤ))

/-- Value of a fractional digit list: digits after the decimal point. -/
def fracVal (ds : List Char) : ℚ :=
  ds.foldr (fun c acc => (((c.toNat - 48 : ℕ) : ℚ) + acc) / 10) 0

/-- Unsigned float parse: digits, optionally a point and more digits; at
least one digit overall is required, otherwise NaN (none). -/
def parseUnsignedFloat (cs : List Char) : Option ℚ :=
  match dropDigits cs with
  | '.' :: rest2 =>
      if (takeDigits cs).isEmpty ∧ (takeDigits rest2).isEmpty then none
      else some ((digitsVal (takeDigits cs) : ℚ) + fracVal (takeDigits rest2))
  | _ =>
      if (takeDigits cs).isEmpty then none
      else some ((digitsVal (takeDigits cs) : ℚ))

/-- JS parseFloat on a decimal input: whitespace skipped, optional sign,
then an unsigned float; NaN when nothing parses. -/
def parseJsFloat (s : List Char) : JSNum :=
  match jsTrim s with
  | '-' :: rest =>
      match parseUnsignedFloat rest with
      | some q => JSNum.num (-q)
      | none => JSNum.nan
  | '+' :: rest =>
      match parseUnsignedFloat rest with
      | some q => JSNum.num q
      | none => JSNum.nan
  | cs =>
      match parseUnsignedFloat cs with
      | some q => JSNum.num q
      | none => JSNum.nan

/-- JS parseInt lifted to JSNum (none becomes NaN), whitespace skipped. -/
def parseJsIntNum (s : List Char) : JSNum :=
  match parseJsInt (jsTrim s) with
  | some n => JSNum.num (n : ℚ)
  | none => JSNum.nan

/-- The radius input handler, src/main.js lines 108-113:
val = parseFloat(value); if (val <= 0) val = 0.5; drillRadius = val.
The clamp applied to the parsed value. -/
def clampRadius (val : JSNum) : JSNum :=
  if jsLe val (JSNum.num 0) then JSNum.num (1 / 2) else val

/-- The radius handler end to end: the value stored into drillRadius for
a given input string. -/
def onRadiusInput (s : List Char) : JSNum :=
  clampRadius (parseJsFloat s)

/-- The holes input handler, src/main.js lines 90-97:
val = parseInt(value); if (val < 1) val = 1; numHoles = val. -/
def clampHoles (val : JSNum) : JSNum :=
  if jsLt val (JSNum.num 1) then JSNum.num 1 else val

/-- The holes handler end to end: the value stored into numHoles for a
given input string. -/
def onHolesInput (s : List Char) : JSNum :=
  clampHoles (parseJsIntNum s)

/-- The batch input parse, src/main.js line 102: split on commas, trim
and parseInt each part, keep only non-NaN results that are positive. -/
def parseBatchParts (s : List Char) : List ℤ :=
  (((jsSplit s).map (fun t => parseJsInt (jsTrim t))).filterMap id).filter
    (fun n => 0 < n)

/-- The batch input handler, src/main.js lines 99-106: the new batchList
given the input string and the previous list; the previous list is kept
when the parse yields no entries. -/
def updateBatchList (s : List Char) (prev : List ℤ) : List ℤ :=
  let parts := parseBatchParts s
  if parts.length > 0 then parts else prev

/-! ### Basic counting lemmas for the mesh pipeline -/

theorem levelCutters_length (xOffset yP sideOff r d : ℚ) :
    (levelCutters xOffset yP sideOff r d).length = 2 + (if d > 0 then 4 else 0) := by
  by_cases h : d > 0 <;> simp [levelCutters, sideGroovesAt, h]

theorem loopCutters_length (xOffset boxHeight sideOff r d : ℚ) (n : ℕ) :
    (loopCutters xOffset boxHeight sideOff r d n).length
      = n * (2 + (if d > 0 then 4 else 0)) := by
  induction n with
  | zero => simp [loopCutters]
  | succ k ih =>
      simp [loopCutters, List.length_append, ih, levelCutters_length]
      ring

theorem tbCutters_length (xOffset tbOff r d : ℚ) :
    (tbCutters xOffset tbOff r d).length = if d > 0 then 4 else 0 := by
  by_cases h : d > 0 <;> simp [tbCutters, h]

theorem blockCutters_length (holes index : ℕ) (r d : ℚ) :
    (blockCutters holes index r d).length
      = 1 + 2 * holes + (if d > 0 then 4 * holes + 4 else 0) := by
  by_cases h : d > 0 <;>
    simp [blockCutters, loopCutters_length, tbCutters_length, h] <;> ring

theorem scriptLevel_length (cx z_pos groove_offset r d : ℚ) :
    (scriptLevel cx z_pos groove_offset r d).length = 2 + (if d > 0 then 4 else 0) := by
  by_cases h : d > 0 <;> simp [scriptLevel, scriptLevelGrooves, h]

theorem scriptLoop_length (cx height groove_offset r d : ℚ) (n : ℕ) :
    (scriptLoop cx height groove_offset r d n).length
      = n * (2 + (if d > 0 then 4 else 0)) := by
  induction n with
  | zero => simp [scriptLoop]
  | succ k ih =>
      simp [scriptLoop, List.length_append, ih, scriptLevel_length]
      ring

theorem scriptTb_length (cx height r d : ℚ) :
    (scriptTb cx height r d).length = if d > 0 then 4 else 0 := by
  by_cases h : d > 0 <;> simp [scriptTb, h]

theorem scriptCreateBlockCutters_length (n : ℕ) (x_offset r d : ℚ) :
    (scriptCreateBlockCutters n x_offset r d).length
      = 1 + 2 * n + (if d > 0 then 4 * n + 4 else 0) := by
  by_cases h : d > 0 <;>
    simp [scriptCreateBlockCutters, scriptLoop_length, scriptTb_length, h] <;> ring

/-! ### Correspondence lemmas between the two pipelines -/

theorem scriptLevel_shape (cx z go r d : ℚ) :
    (scriptLevel cx z go r d).map (fun c => (rcylToCutter c).shape)
      = (levelCutters cx z go r d).map Cutter.shape := by
  by_cases h : d > 0 <;>
    simp [scriptLevel, scriptLevelGrooves, levelCutters, sideGroovesAt,
      rcylToCutter, rcylCenter, ptToMesh, axisToMesh, scriptCrossLength,
      Cutter.shape, h] <;>
    norm_num

theorem scriptTb_shape (cx h r d : ℚ) :
    (scriptTb cx h r d).map (fun c => (rcylToCutter c).shape)
      = (tbCutters cx (h / 2 - d + r) r d).map Cutter.shape := by
  by_cases hd : d > 0
  case pos =>
    simp [scriptTb, tbCutters, rcylToCutter, rcylCenter, ptToMesh, axisToMesh,
      scriptCrossLength, Cutter.shape, hd]
    norm_num
  case neg =>
    simp [scriptTb, tbCutters, hd]

theorem scriptLoop_shape (cx h go r d : ℚ) (n : ℕ) :
    (scriptLoop cx h go r d n).map (fun c => (rcylToCutter c).shape)
      = (loopCutters cx h go r d n).map Cutter.shape := by
  induction n with
  | zero => simp [scriptLoop, loopCutters]
  | succ k ih => simp [scriptLoop, loopCutters, ih, scriptLevel_shape]

theorem scriptBlock_shape (n index : ℕ) (r d : ℚ) :
    (scriptCreateBlockCutters n ((index : ℚ) * BATCH_SPACING) r d).map
        (fun c => (rcylToCutter c).shape)
      = (blockCutters n index r d).map Cutter.shape := by
  simp only [scriptCreateBlockCutters, blockCutters, scriptHeight, List.map_cons,
    List.map_append, scriptLoop_shape, scriptTb_shape]
  congr 1
  simp [rcylToCutter, rcylCenter, ptToMesh, axisToMesh, Cutter.shape, vCutter]
  ring

theorem mem_levelCutters_length (xo yP so r d : ℚ) (c : Cutter)
    (hc : c ∈ levelCutters xo yP so r d) : c.length = 80 := by
  by_cases h : d > 0 <;>
    simp [levelCutters, sideGroovesAt, h] at hc <;>
    rcases hc with rfl | rfl | rfl | rfl | rfl | rfl <;> rfl

theorem mem_loopCutters_length (xo bh so r d : ℚ) (n : ℕ) (c : Cutter)
    (hc : c ∈ loopCutters xo bh so r d n) : c.length = 80 := by
  induction n with
  | zero => simp [loopCutters] at hc
  | succ k ih =>
      simp only [loopCutters, List.mem_append] at hc
      rcases hc with hc | hc
      · exact ih hc
      · exact mem_levelCutters_length _ _ _ _ _ _ hc

theorem mem_tbCutters_length (xo tbOff r d : ℚ) (c : Cutter)
    (hc : c ∈ tbCutters xo tbOff r d) : c.length = 80 := by
  by_cases h : d > 0
  case pos =>
    simp [tbCutters, h] at hc
    rcases hc with rfl | rfl | rfl | rfl <;> rfl
  case neg => simp [tbCutters, h] at hc

theorem mem_blockCutters_tail_length (n index : ℕ) (r d : ℚ) (c : Cutter)
    (hc : c ∈ (blockCutters n index r d).tail) : c.length = 80 := by
  simp only [blockCutters, List.tail_cons, List.mem_append] at hc
  rcases hc with hc | hc
  · exact mem_loopCutters_length _ _ _ _ _ _ _ hc
  · exact mem_tbCutters_length _ _ _ _ _ hc

theorem mem_scriptLevel_length (cx z go r d : ℚ) (c : RCyl)
    (hc : c ∈ scriptLevel cx z go r d) : c.length = 80 := by
  by_cases h : d > 0 <;>
    simp [scriptLevel, scriptLevelGrooves, h] at hc <;>
    rcases hc with rfl | rfl | rfl | rfl | rfl | rfl <;> rfl

theorem mem_scriptLoop_length (cx hgt go r d : ℚ) (n : ℕ) (c : RCyl)
    (hc : c ∈ scriptLoop cx hgt go r d n) : c.length = 80 := by
  induction n with
  | zero => simp [scriptLoop] at hc
  | succ k ih =>
      simp only [scriptLoop, List.mem_append] at hc
      rcases hc with hc | hc
      · exact ih hc
      · exact mem_scriptLevel_length _ _ _ _ _ _ hc

theorem mem_scriptTb_length (cx hgt r d : ℚ) (c : RCyl)
    (hc : c ∈ scriptTb cx hgt r d) : c.length = 80 := by
  by_cases h : d > 0
  case pos =>
    simp [scriptTb, h] at hc
    rcases hc with rfl | rfl | rfl | rfl <;> rfl
  case neg => simp [scriptTb, h] at hc

theorem mem_scriptBlock_tail_length (n : ℕ) (x r d : ℚ) (c : RCyl)
    (hc : c ∈ (scriptCreateBlockCutters n x r d).tail) : c.length = 80 := by
  simp only [scriptCreateBlockCutters, List.tail_cons, List.mem_append] at hc
  rcases hc with hc | hc
  · exact mem_scriptLoop_length _ _ _ _ _ _ _ hc
  · exact mem_scriptTb_length _ _ _ _ _ hc

theorem foldl_push {α β : Type} (f : α → β) (l : List α) (acc : List β) :
    List.foldl (fun a x => a ++ [f x]) acc l = acc ++ l.map f := by
  induction l generalizing acc with
  | nil => simp
  | cons b bs ih => simp [List.foldl_cons, ih]

theorem generateModel_eq (prev : List Block) (mode : Mode) (nh : ℕ)
    (bl : List ℕ) (r d : ℚ) :
    generateModel prev mode nh bl r d
      = ((scriptBlockList mode nh bl).enum).map (fun p => generateBlock p.2 p.1 r d) := by
  cases mode <;>
    simp [generateModel, scriptBlockList, foldl_push]

theorem driver_offsets_agree (prev : List Block) (mode : Mode) (nh : ℕ)
    (bl : List ℕ) (r d : ℚ) :
    (scriptModel mode nh bl r d).map Prod.fst
      = (generateModel prev mode nh bl r d).map Block.xOffset := by
  simp [scriptModel, generateModel_eq, List.map_map, Function.comp, generateBlock]

/-! ### Behaviour of the groove guards for non-positive depth -/

theorem levelCutters_of_nonpos (xo yP so r d : ℚ) (h : ¬ d > 0) :
    levelCutters xo yP so r d
      = [ ⟨Axis.X, ⟨xo, yP, 0⟩, r, 80⟩, ⟨Axis.Z, ⟨xo, yP, 0⟩, r, 80⟩ ] := by
  simp [levelCutters, h]

theorem loopCutters_of_nonpos (xo bh so so2 r d d2 : ℚ) (h : ¬ d > 0)
    (h2 : ¬ d2 > 0) (n : ℕ) :
    loopCutters xo bh so r d n = loopCutters xo bh so2 r d2 n := by
  induction n with
  | zero => rfl
  | succ k ih =>
      simp only [loopCutters, ih, levelCutters_of_nonpos _ _ _ _ _ h,
        levelCutters_of_nonpos _ _ _ _ _ h2]

theorem scriptLevel_of_nonpos (cx z go r d : ℚ) (h : ¬ d > 0) :
    scriptLevel cx z go r d
      = [ ⟨⟨cx - 40, 0, z⟩, Axis.X, scriptCrossLength, r⟩,
          ⟨⟨cx, -40, z⟩, Axis.Y, scriptCrossLength, r⟩ ] := by
  simp [scriptLevel, h]

theorem scriptLoop_of_nonpos (cx hgt go go2 r d d2 : ℚ) (h : ¬ d > 0)
    (h2 : ¬ d2 > 0) (n : ℕ) :
    scriptLoop cx hgt go r d n = scriptLoop cx hgt go2 r d2 n := by
  induction n with
  | zero => rfl
  | succ k ih =>
      simp only [scriptLoop, ih, scriptLevel_of_nonpos _ _ _ _ _ h,
        scriptLevel_of_nonpos _ _ _ _ _ h2]

/-! ### Claim theorems -/

/-- C1: for every hole count n >= 1 and every grooveDepth d, one block
subtracts exactly 1 vertical cylinder plus 2n through cylinders, plus,
exactly when d > 0, 4n side-groove cylinders and 4 top/bottom groove
cylinders; in particular for numHoles=5, drillRadius=4.0,
grooveDepth=0.5 the box height is 100.0 and exactly 35 cutters are
subtracted. -/
theorem C1_cutter_count (n index : ℕ) (r d : ℚ) (hn : 1 ≤ n) :
    (blockCutters n index r d).length = 1 + 2 * n + (if 0 < d then 4 * n + 4 else 0)
  ∧ (loopCutters ((index : ℚ) * BATCH_SPACING) ((n : ℚ) * HEIGHT_PER_HOLE)
        (BOX_WIDTH / 2 - d + r) r d n).length = 2 * n + (if 0 < d then 4 * n else 0)
  ∧ (tbCutters ((index : ℚ) * BATCH_SPACING)
        (((n : ℚ) * HEIGHT_PER_HOLE) / 2 - d + r) r d).length = (if 0 < d then 4 else 0)
  ∧ (generateBlock 5 0 4 (1 / 2)).boxHeight = 100
  ∧ (blockCutters 5 0 4 (1 / 2)).length = 35 := by
  refine ⟨?_, ?_, ?_, ?_, ?_⟩
  · by_cases h : 0 < d <;> simp [blockCutters_length, h] <;> ring
  · by_cases h : 0 < d <;> simp [loopCutters_length, h] <;> ring
  · exact tbCutters_length _ _ _ _
  · norm_num [generateBlock, HEIGHT_PER_HOLE]
  · rw [blockCutters_length]; norm_num

/-- C1 witness: the general count evaluated at the scenario of the
claim, n=5, drillRadius=4, grooveDepth=1/2. -/
theorem C1_cutter_count_witness :
    (blockCutters 5 0 4 (1 / 2)).length
        = 1 + 2 * 5 + (if (0 : ℚ) < 1 / 2 then 4 * 5 + 4 else 0)
  ∧ (loopCutters ((0 : ℚ) * BATCH_SPACING) ((5 : ℚ) * HEIGHT_PER_HOLE)
        (BOX_WIDTH / 2 - 1 / 2 + 4) 4 (1 / 2) 5).length
        = 2 * 5 + (if (0 : ℚ) < 1 / 2 then 4 * 5 else 0)
  ∧ (tbCutters ((0 : ℚ) * BATCH_SPACING)
        (((5 : ℚ) * HEIGHT_PER_HOLE) / 2 - 1 / 2 + 4) 4 (1 / 2)).length
        = (if (0 : ℚ) < 1 / 2 then 4 else 0)
  ∧ (generateBlock 5 0 4 (1 / 2)).boxHeight = 100
  ∧ (blockCutters 5 0 4 (1 / 2)).length = 35 := by
  have h := C1_cutter_count 5 0 4 (1 / 2) (by norm_num)
  simpa using h

/-- C3: for every hole count n >= 1 (radius r > 0, depth d >= 0) the box
height equals exactly n times the per-hole height constant 20.0, in both
the mesh pipeline and the emitted script. -/
theorem C3_box_height (n index : ℕ) (r d : ℚ) (hn : 1 ≤ n) (hr : 0 < r)
    (hd : 0 ≤ d) :
    (generateBlock n index r d).boxHeight = (n : ℚ) * 20
  ∧ scriptHeight n = (n : ℚ) * 20
  ∧ HEIGHT_PER_HOLE = 20 := by
  refine ⟨rfl, rfl, rfl⟩

/-- C3 witness: the box-height law evaluated at n=7, r=2, d=0. -/
theorem C3_box_height_witness :
    (generateBlock 7 0 2 0).boxHeight = (7 : ℚ) * 20
  ∧ scriptHeight 7 = (7 : ℚ) * 20
  ∧ HEIGHT_PER_HOLE = 20 :=
  C3_box_height 7 0 2 0 (by norm_num) (by norm_num) (by norm_num)

/-- C2: for every Configuration the numeric values embedded in the
emitted Rhino script (radius, groove depth, box dimensions, box height
formula, hole offsets, groove offsets, batch spacing, cross-section
cutter length) equal the values used by the interactive mesh pipeline
for the same Configuration: the script cutters, mapped through the
script-to-mesh coordinate change, have the same axis, center and radius
as the mesh cutters one for one; every non-vertical cutter has length 80
in both paths; the script box height and box corners agree with the mesh
box; and the driver places blocks at the same horizontal offsets as the
mesh pipeline.  The vertical-hole over-length (boxHeight+20 in the mesh,
height+100 in the script) is the only value outside this list and it is
not part of the claim. -/
theorem C2_script_matches_preview (n index : ℕ) (r d : ℚ) :
    ((scriptCreateBlockCutters n ((index : ℚ) * BATCH_SPACING) r d).map
        (fun c => (rcylToCutter c).shape)
      = (blockCutters n index r d).map Cutter.shape)
  ∧ (∀ c ∈ (scriptCreateBlockCutters n ((index : ℚ) * BATCH_SPACING) r d).tail,
        c.length = 80)
  ∧ (∀ c ∈ (blockCutters n index r d).tail, c.length = 80)
  ∧ scriptHeight n = (generateBlock n index r d).boxHeight
  ∧ ptToMesh (scriptBoxC1 n ((index : ℚ) * BATCH_SPACING))
      = ⟨(index : ℚ) * BATCH_SPACING - BOX_WIDTH / 2,
          -((generateBlock n index r d).boxHeight / 2), -(BOX_DEPTH / 2)⟩
  ∧ ptToMesh (scriptBoxC7 n ((index : ℚ) * BATCH_SPACING))
      = ⟨(index : ℚ) * BATCH_SPACING + BOX_WIDTH / 2,
          (generateBlock n index r d).boxHeight / 2, BOX_DEPTH / 2⟩
  ∧ ∀ (prev : List Block) (mode : Mode) (nh : ℕ) (bl : List ℕ),
      (scriptModel mode nh bl r d).map Prod.fst
        = (generateModel prev mode nh bl r d).map Block.xOffset := by
  refine ⟨scriptBlock_shape n index r d,
    fun c hc => mem_scriptBlock_tail_length _ _ _ _ _ hc,
    fun c hc => mem_blockCutters_tail_length _ _ _ _ _ hc,
    rfl, ?_, ?_,
    fun prev mode nh bl => driver_offsets_agree prev mode nh bl r d⟩
  · simp [ptToMesh, scriptBoxC1, generateBlock, scriptHeight]
    constructor <;> ring
  · simp [ptToMesh, scriptBoxC7, generateBlock, scriptHeight]

/-- C2 witness: the correspondence evaluated at n=5, index=1, r=4,
d=1/2. -/
theorem C2_script_matches_preview_witness :
    ((scriptCreateBlockCutters 5 ((1 : ℚ) * BATCH_SPACING) 4 (1 / 2)).map
        (fun c => (rcylToCutter c).shape)
      = (blockCutters 5 1 4 (1 / 2)).map Cutter.shape)
  ∧ (∀ c ∈ (scriptCreateBlockCutters 5 ((1 : ℚ) * BATCH_SPACING) 4 (1 / 2)).tail,
        c.length = 80)
  ∧ (∀ c ∈ (blockCutters 5 1 4 (1 / 2)).tail, c.length = 80)
  ∧ scriptHeight 5 = (generateBlock 5 1 4 (1 / 2)).boxHeight
  ∧ ptToMesh (scriptBoxC1 5 ((1 : ℚ) * BATCH_SPACING))
      = ⟨(1 : ℚ) * BATCH_SPACING - BOX_WIDTH / 2,
          -((generateBlock 5 1 4 (1 / 2)).boxHeight / 2), -(BOX_DEPTH / 2)⟩
  ∧ ptToMesh (scriptBoxC7 5 ((1 : ℚ) * BATCH_SPACING))
      = ⟨(1 : ℚ) * BATCH_SPACING + BOX_WIDTH / 2,
          (generateBlock 5 1 4 (1 / 2)).boxHeight / 2, BOX_DEPTH / 2⟩
  ∧ ∀ (prev : List Block) (mode : Mode) (nh : ℕ) (bl : List ℕ),
      (scriptModel mode nh bl 4 (1 / 2)).map Prod.fst
        = (generateModel prev mode nh bl 4 (1 / 2)).map Block.xOffset := by
  have h := C2_script_matches_preview 5 1 4 (1 / 2)
  simpa using h

/-- C4: for every depth d >= 0 and radius r > 0, each side-groove
cylinder sits at lateral displacement exactly BOX_WIDTH/2 - d + r from
the block center along one of the four lateral face-normal directions
(both pipelines), and each top/bottom groove cylinder sits on the block
axis at long-axis offset exactly plus or minus (boxHeight/2 - d + r)
(both pipelines); the final conjunct records that `blockCutters` invokes
these groove families at exactly those offsets. -/
theorem C4_groove_offsets (n index : ℕ) (yP z r d : ℚ) (hd : 0 ≤ d) (hr : 0 < r) :
    (∀ c ∈ sideGroovesAt ((index : ℚ) * BATCH_SPACING) yP (BOX_WIDTH / 2 - d + r) r,
        (c.center.x = (index : ℚ) * BATCH_SPACING
            ∧ c.center.z = BOX_WIDTH / 2 - d + r)
      ∨ (c.center.x = (index : ℚ) * BATCH_SPACING
            ∧ c.center.z = -(BOX_WIDTH / 2 - d + r))
      ∨ (c.center.x = (index : ℚ) * BATCH_SPACING + (BOX_WIDTH / 2 - d + r)
            ∧ c.center.z = 0)
      ∨ (c.center.x = (index : ℚ) * BATCH_SPACING - (BOX_WIDTH / 2 - d + r)
            ∧ c.center.z = 0))
  ∧ (∀ c ∈ tbCutters ((index : ℚ) * BATCH_SPACING)
        (((n : ℚ) * HEIGHT_PER_HOLE) / 2 - d + r) r d,
        c.center.x = (index : ℚ) * BATCH_SPACING ∧ c.center.z = 0
          ∧ (c.center.y = ((n : ℚ) * HEIGHT_PER_HOLE) / 2 - d + r
              ∨ c.center.y = -(((n : ℚ) * HEIGHT_PER_HOLE) / 2 - d + r)))
  ∧ (∀ c ∈ scriptLevelGrooves ((index : ℚ) * BATCH_SPACING) z (BOX_WIDTH / 2 - d + r) r,
        ((rcylToCutter c).center.x = (index : ℚ) * BATCH_SPACING
            ∧ (rcylToCutter c).center.z = BOX_WIDTH / 2 - d + r)
      ∨ ((rcylToCutter c).center.x = (index : ℚ) * BATCH_SPACING
            ∧ (rcylToCutter c).center.z = -(BOX_WIDTH / 2 - d + r))
      ∨ ((rcylToCutter c).center.x = (index : ℚ) * BATCH_SPACING + (BOX_WIDTH / 2 - d + r)
            ∧ (rcylToCutter c).center.z = 0)
      ∨ ((rcylToCutter c).center.x = (index : ℚ) * BATCH_SPACING - (BOX_WIDTH / 2 - d + r)
            ∧ (rcylToCutter c).center.z = 0))
  ∧ (∀ c ∈ scriptTb ((index : ℚ) * BATCH_SPACING) (scriptHeight n) r d,
        (rcylToCutter c).center.y = scriptHeight n / 2 - d + r
      ∨ (rcylToCutter c).center.y = -(scriptHeight n / 2 - d + r))
  ∧ blockCutters n index r d
      = vCutter ((index : ℚ) * BATCH_SPACING) r ((n : ℚ) * HEIGHT_PER_HOLE)
        :: (loopCutters ((index : ℚ) * BATCH_SPACING) ((n : ℚ) * HEIGHT_PER_HOLE)
              (BOX_WIDTH / 2 - d + r) r d n
            ++ tbCutters ((index : ℚ) * BATCH_SPACING)
                (((n : ℚ) * HEIGHT_PER_HOLE) / 2 - d + r) r d) := by
  refine ⟨?_, ?_, ?_, ?_, rfl⟩
  · intro c hc
    simp only [sideGroovesAt, List.mem_cons, List.mem_singleton,
      List.not_mem_nil, or_false] at hc
    rcases hc with rfl | rfl | rfl | rfl <;> simp
  · intro c hc
    by_cases h : d > 0
    case pos =>
      simp only [tbCutters, if_pos h, List.mem_cons, List.mem_singleton,
        List.not_mem_nil, or_false] at hc
      rcases hc with rfl | rfl | rfl | rfl <;> simp
    case neg => simp [tbCutters, h] at hc
  · intro c hc
    simp only [scriptLevelGrooves, List.mem_cons, List.mem_singleton,
      List.not_mem_nil, or_false] at hc
    rcases hc with rfl | rfl | rfl | rfl <;>
      simp [rcylToCutter, rcylCenter, ptToMesh, scriptCrossLength] <;> ring_nf <;> simp
  · intro c hc
    by_cases h : d > 0
    case pos =>
      simp only [scriptTb, if_pos h, List.mem_cons, List.mem_singleton,
        List.not_mem_nil, or_false] at hc
      rcases hc with rfl | rfl | rfl | rfl <;>
        simp [rcylToCutter, rcylCenter, ptToMesh, scriptCrossLength]
    case neg => simp [scriptTb, h] at hc

/-- C4 witness: the groove-offset law evaluated at n=5, index=0, r=4,
d=1/2, with the level coordinates at 0. -/
theorem C4_groove_offsets_witness :
    (∀ c ∈ sideGroovesAt ((0 : ℚ) * BATCH_SPACING) 0 (BOX_WIDTH / 2 - 1 / 2 + 4) 4,
        (c.center.x = (0 : ℚ) * BATCH_SPACING
            ∧ c.center.z = BOX_WIDTH / 2 - 1 / 2 + 4)
      ∨ (c.center.x = (0 : ℚ) * BATCH_SPACING
            ∧ c.center.z = -(BOX_WIDTH / 2 - 1 / 2 + 4))
      ∨ (c.center.x = (0 : ℚ) * BATCH_SPACING + (BOX_WIDTH / 2 - 1 / 2 + 4)
            ∧ c.center.z = 0)
      ∨ (c.center.x = (0 : ℚ) * BATCH_SPACING - (BOX_WIDTH / 2 - 1 / 2 + 4)
            ∧ c.center.z = 0))
  ∧ (∀ c ∈ tbCutters ((0 : ℚ) * BATCH_SPACING)
        (((5 : ℚ) * HEIGHT_PER_HOLE) / 2 - 1 / 2 + 4) 4 (1 / 2),
        c.center.x = (0 : ℚ) * BATCH_SPACING ∧ c.center.z = 0
          ∧ (c.center.y = ((5 : ℚ) * HEIGHT_PER_HOLE) / 2 - 1 / 2 + 4
              ∨ c.center.y = -(((5 : ℚ) * HEIGHT_PER_HOLE) / 2 - 1 / 2 + 4)))
  ∧ (∀ c ∈ scriptLevelGrooves ((0 : ℚ) * BATCH_SPACING) 0 (BOX_WIDTH / 2 - 1 / 2 + 4) 4,
        ((rcylToCutter c).center.x = (0 : ℚ) * BATCH_SPACING
            ∧ (rcylToCutter c).center.z = BOX_WIDTH / 2 - 1 / 2 + 4)
      ∨ ((rcylToCutter c).center.x = (0 : ℚ) * BATCH_SPACING
            ∧ (rcylToCutter c).center.z = -(BOX_WIDTH / 2 - 1 / 2 + 4))
      ∨ ((rcylToCutter c).center.x = (0 : ℚ) * BATCH_SPACING + (BOX_WIDTH / 2 - 1 / 2 + 4)
            ∧ (rcylToCutter c).center.z = 0)
      ∨ ((rcylToCutter c).center.x = (0 : ℚ) * BATCH_SPACING - (BOX_WIDTH / 2 - 1 / 2 + 4)
            ∧ (rcylToCutter c).center.z = 0))
  ∧ (∀ c ∈ scriptTb ((0 : ℚ) * BATCH_SPACING) (scriptHeight 5) 4 (1 / 2),
        (rcylToCutter c).center.y = scriptHeight 5 / 2 - 1 / 2 + 4
      ∨ (rcylToCutter c).center.y = -(scriptHeight 5 / 2 - 1 / 2 + 4))
  ∧ blockCutters 5 0 4 (1 / 2)
      = vCutter ((0 : ℚ) * BATCH_SPACING) 4 ((5 : ℚ) * HEIGHT_PER_HOLE)
        :: (loopCutters ((0 : ℚ) * BATCH_SPACING) ((5 : ℚ) * HEIGHT_PER_HOLE)
              (BOX_WIDTH / 2 - 1 / 2 + 4) 4 (1 / 2) 5
            ++ tbCutters ((0 : ℚ) * BATCH_SPACING)
                (((5 : ℚ) * HEIGHT_PER_HOLE) / 2 - 1 / 2 + 4) 4 (1 / 2)) :=
  C4_groove_offsets 5 0 0 0 4 (1 / 2) (by norm_num) (by norm_num)

/-- C5: in batch mode with hole-count list [3, 2, 5], block i is placed
with its horizontal center at i * BATCH_SPACING (0, 40, 80), and the
three blocks are generated with hole counts 3, 2 and 5 (so box heights
60, 40, 100), in the mesh pipeline and in the driver loop of the emitted
script. -/
theorem C5_batch_placement (prev : List Block) (nh : ℕ) (r d : ℚ) :
    generateModel prev Mode.batch nh [3, 2, 5] r d
      = [generateBlock 3 0 r d, generateBlock 2 1 r d, generateBlock 5 2 r d]
  ∧ (generateModel prev Mode.batch nh [3, 2, 5] r d).map Block.xOffset = [0, 40, 80]
  ∧ (generateModel prev Mode.batch nh [3, 2, 5] r d).map Block.boxHeight = [60, 40, 100]
  ∧ BATCH_SPACING = 40
  ∧ scriptBlockList Mode.batch nh [3, 2, 5] = [3, 2, 5]
  ∧ (scriptModel Mode.batch nh [3, 2, 5] r d).map Prod.fst = [0, 40, 80]
  ∧ (scriptModel Mode.batch nh [3, 2, 5] r d).map Prod.snd
      = [scriptCreateBlockCutters 3 0 r d, scriptCreateBlockCutters 2 40 r d,
         scriptCreateBlockCutters 5 80 r d] := by
  have hgen : generateModel prev Mode.batch nh [3, 2, 5] r d
      = [generateBlock 3 0 r d, generateBlock 2 1 r d, generateBlock 5 2 r d] := by
    simp [generateModel_eq, scriptBlockList, List.enum, List.enumFrom]
  refine ⟨hgen, ?_, ?_, rfl, rfl, ?_, ?_⟩
  · rw [hgen]
    simp [generateBlock, BATCH_SPACING]
    norm_num
  · rw [hgen]
    simp [generateBlock, HEIGHT_PER_HOLE]
    norm_num
  · simp [scriptModel, scriptBlockList, List.enum, List.enumFrom, BATCH_SPACING]
    norm_num
  · simp [scriptModel, scriptBlockList, List.enum, List.enumFrom, BATCH_SPACING]
    norm_num

/-- C6: a numeric drillRadius input value of 0 or negative is coerced by
the input handler to the fixed floor 1/2 before being stored (and hence
before any generation reads it), and at grooveDepth exactly 0 the mesh
pipeline produces no groove cylinders (exactly 1 + 2n cutters) and the
emitted script, whose groove code sits behind an if depth > 0 guard,
constructs none either. -/
theorem C6_clamp_and_zero_depth (v r x : ℚ) (n index : ℕ) (hv : v ≤ 0) :
    clampRadius (JSNum.num v) = JSNum.num (1 / 2)
  ∧ (blockCutters n index r 0).length = 1 + 2 * n
  ∧ (scriptCreateBlockCutters n x r 0).length = 1 + 2 * n
  ∧ tbCutters ((index : ℚ) * BATCH_SPACING) (((n : ℚ) * HEIGHT_PER_HOLE) / 2 - 0 + r) r 0 = []
  ∧ scriptTb x (scriptHeight n) r 0 = [] := by
  refine ⟨?_, ?_, ?_, ?_, ?_⟩
  · simp [clampRadius, jsLe, hv]
  · rw [blockCutters_length]; norm_num
  · rw [scriptCreateBlockCutters_length]; norm_num
  · simp [tbCutters]
  · simp [scriptTb]

/-- C6 witness: the clamp and the zero-depth groove counts evaluated at
input value 0, n=3, r=4. -/
theorem C6_clamp_and_zero_depth_witness :
    clampRadius (JSNum.num 0) = JSNum.num (1 / 2)
  ∧ (blockCutters 3 0 4 0).length = 1 + 2 * 3
  ∧ (scriptCreateBlockCutters 3 0 4 0).length = 1 + 2 * 3
  ∧ tbCutters ((0 : ℚ) * BATCH_SPACING) (((3 : ℚ) * HEIGHT_PER_HOLE) / 2 - 0 + 4) 4 0 = []
  ∧ scriptTb 0 (scriptHeight 3) 4 0 = [] :=
  C6_clamp_and_zero_depth 0 4 0 3 0 (le_refl 0)

/-- C7: the comma-separated batch input is split, trimmed and parsed
entry by entry; only entries whose parseInt result is a positive integer
are kept (parse failures are dropped with no error), and when the kept
list is empty the previous batch list is retained unchanged. -/
theorem C7_batch_parse (s : List Char) (prev : List ℤ) :
    (∀ k ∈ parseBatchParts s, 0 < k)
  ∧ updateBatchList s prev
      = (if parseBatchParts s = [] then prev else parseBatchParts s) := by
  constructor
  · intro k hk
    simp only [parseBatchParts, List.mem_filter, decide_eq_true_eq] at hk
    exact hk.2
  · by_cases hp : parseBatchParts s = []
    · simp [updateBatchList, hp]
    · have : 0 < (parseBatchParts s).length := List.length_pos.mpr hp
      simp [updateBatchList, hp, this]

/-- C7 witness: the parse evaluated on the input "3, x, -2, 5" (one
non-numeric entry, one non-positive entry) against previous list [7]:
the kept entries are exactly [3, 5], and on the all-invalid input "x"
the previous list is retained. -/
theorem C7_batch_parse_witness :
    parseBatchParts ("3, x, -2, 5".data) = [3, 5]
  ∧ updateBatchList ("x".data) [7] = [7]
  ∧ ((∀ k ∈ parseBatchParts ("3, x, -2, 5".data), 0 < k)
      ∧ updateBatchList ("3, x, -2, 5".data) [7]
          = (if parseBatchParts ("3, x, -2, 5".data) = [] then [7]
             else parseBatchParts ("3, x, -2, 5".data))) :=
  ⟨by decide, by decide, C7_batch_parse ("3, x, -2, 5".data) [7]⟩

/-- C8: running the generation twice with an identical Configuration
yields identical block lists whatever meshes were left by previous runs:
the output does not depend on the incoming currentMeshes state (which
generateModel clears first), and a second run on top of the first
reproduces the first exactly. -/
theorem C8_regeneration_deterministic (s1 s2 : List Block) (mode : Mode)
    (nh : ℕ) (bl : List ℕ) (r d : ℚ) :
    generateModel s1 mode nh bl r d = generateModel s2 mode nh bl r d
  ∧ generateModel (generateModel s1 mode nh bl r d) mode nh bl r d
      = generateModel s1 mode nh bl r d :=
  ⟨rfl, rfl⟩

/-- C9: when parseFloat yields NaN (non-numeric radius input) the clamp
condition val <= 0 is false, so drillRadius is stored as NaN; likewise a
non-numeric holes input passes the val < 1 clamp and stores NaN into
numHoles: the clamping does not protect these two fields against
non-numeric input. -/
theorem C9_nan_passes_clamps (s t : List Char)
    (hs : parseJsFloat s = JSNum.nan) (ht : parseJsIntNum t = JSNum.nan) :
    onRadiusInput s = JSNum.nan
  ∧ onHolesInput t = JSNum.nan
  ∧ jsLe JSNum.nan (JSNum.num 0) = false
  ∧ jsLt JSNum.nan (JSNum.num 1) = false := by
  refine ⟨?_, ?_, rfl, rfl⟩
  · simp [onRadiusInput, clampRadius, hs, jsLe]
  · simp [onHolesInput, clampHoles, ht, jsLt]

/-- C9 witness: the NaN pass-through evaluated on the non-numeric input
"abc" for both fields. -/
theorem C9_nan_passes_clamps_witness :
    (parseJsFloat ("abc".data) = JSNum.nan ∧ parseJsIntNum ("abc".data) = JSNum.nan)
  ∧ (onRadiusInput ("abc".data) = JSNum.nan
      ∧ onHolesInput ("abc".data) = JSNum.nan
      ∧ jsLe JSNum.nan (JSNum.num 0) = false
      ∧ jsLt JSNum.nan (JSNum.num 1) = false) :=
  ⟨⟨by decide, by decide⟩,
    C9_nan_passes_clamps ("abc".data) ("abc".data) (by decide) (by decide)⟩

/-- C10: for every grooveDepth strictly below 0 both pipelines generate
exactly the cutter lists of depth 0 (all groove code sits behind strict
depth > 0 guards), hence zero groove cylinders and 1 + 2n cutters per
block, instead of grooves placed outward. -/
theorem C10_negative_depth (n index : ℕ) (x r d : ℚ) (hd : d < 0) :
    blockCutters n index r d = blockCutters n index r 0
  ∧ scriptCreateBlockCutters n x r d = scriptCreateBlockCutters n x r 0
  ∧ (blockCutters n index r d).length = 1 + 2 * n
  ∧ (scriptCreateBlockCutters n x r d).length = 1 + 2 * n := by
  have hnp : ¬ d > 0 := by linarith
  have hnp0 : ¬ (0 : ℚ) > 0 := by norm_num
  refine ⟨?_, ?_, ?_, ?_⟩
  · simp only [blockCutters, tbCutters, if_neg hnp, if_neg hnp0,
      loopCutters_of_nonpos _ _ _ (BOX_WIDTH / 2 - 0 + r) _ _ 0 hnp hnp0]
  · simp only [scriptCreateBlockCutters, scriptTb, if_neg hnp, if_neg hnp0,
      scriptLoop_of_nonpos _ _ _ (BOX_WIDTH / 2 - 0 + r) _ _ 0 hnp hnp0]
  · rw [blockCutters_length, if_neg hnp]; ring
  · rw [scriptCreateBlockCutters_length, if_neg hnp]; ring

/-- C10 witness: negative depth evaluated at d = -1, n = 2, r = 4. -/
theorem C10_negative_depth_witness :
    blockCutters 2 0 4 (-1) = blockCutters 2 0 4 0
  ∧ scriptCreateBlockCutters 2 0 4 (-1) = scriptCreateBlockCutters 2 0 4 0
  ∧ (blockCutters 2 0 4 (-1)).length = 1 + 2 * 2
  ∧ (scriptCreateBlockCutters 2 0 4 (-1)).length = 1 + 2 * 2 :=
  C10_negative_depth 2 0 0 4 (-1) (by norm_num)
